import Mathlib

/-!
Verification development for the session/thread synchronization engine of a
browser-resident chat client (Quickstart-Template).

The definitions below are a shallow embedding of the TypeScript source:
  src/src/lib/storage/indexeddb.ts          (persistent local store)
  src/src/components/chat/hooks/useChat.tsx (stream parser and orchestrator)
  src/src/app/recoverPassword/page.tsx      (MessageActions vote handlers)
  the PublicAgentSessionContext provider    (createNewThread, updateThreadTitle)
  the ApiService streaming transport        (streamChatRequest)

JavaScript-value conventions used throughout:
  an Option models a possibly undefined or null JS value (none = absent);
  jsStr models template-literal stringification, where an absent value
  prints as the string undefined;
  parseIntJS models the JS parseInt applied to a whitespace-free string:
  an optional sign followed by a maximal digit prefix, none when the string
  has no leading digit (NaN).
-/

/-- JS parseInt on a whitespace-free string: optional sign, maximal digit
prefix, none models NaN. -/
def parseIntJS (s : String) : Option Int :=
  let cs := s.toList
  let signed : Bool × List Char :=
    match cs with
    | '-' :: t => (true, t)
    | '+' :: t => (false, t)
    | _ => (false, cs)
  let digits := signed.2.takeWhile Char.isDigit
  if digits.isEmpty then none
  else
    let n : Nat := digits.foldl (fun acc c => acc * 10 + (c.toNat - 48)) 0
    some (if signed.1 then -(n : Int) else (n : Int))

/-- JS test x < 0 where x may be NaN: NaN compares false. -/
def intLtZero : Option Int → Bool
  | none => false
  | some n => n < 0

/-- JS test x > 0 where x may be NaN: NaN compares false. -/
def intGtZero : Option Int → Bool
  | none => false
  | some n => 0 < n

/-- JS a || d for a string-or-null a and a string default d: the empty
string and null are falsy. -/
def jsOrStr (a : Option String) (d : String) : String :=
  match a with
  | some s => if s = "" then d else s
  | none => d

/-- JS strict equality between two possibly absent strings: an absent value
(null or undefined) is never strictly equal to a string, and the null on
one side never equals the undefined on the other, so both-absent is false
at the call sites embedded here. -/
def jsEqOpt (a b : Option String) : Bool :=
  match a, b with
  | some x, some y => x = y
  | _, _ => false

/-- JS truthiness of a possibly absent string. -/
def jsTruthy : Option String → Bool
  | none => false
  | some s => s ≠ ""

/-- JS template-literal stringification of a possibly absent string. -/
def jsStr : Option String → String
  | none => "undefined"
  | some s => s

/-- JS a || b for two possibly absent strings, the empty string being
falsy. -/
def jsOrOpt (a b : Option String) : Option String :=
  match a with
  | some s => if s = "" then b else some s
  | none => b

/-!
## Identity Reconciler

isResponseForCurrentThread, embedded from useChat.tsx lines 52-68.
The argument order and the three rules follow the source:
rule 1 compares the active-thread pointer with the response thread id,
rule 2 compares the active-thread pointer with the URL thread id,
rule 3 fires when the current thread is local, the response carries a
truthy thread id, and parseInt(activeThreadId || "0") is negative.
-/
def isResponseForCurrentThread (activeThreadId : Option String)
    (responseThreadId : Option String) (currentThreadId : Option String)
    (isLocalThread : Bool) : Bool :=
  if jsEqOpt activeThreadId responseThreadId then true
  else if jsEqOpt activeThreadId currentThreadId then true
  else if isLocalThread && jsTruthy responseThreadId
      && intLtZero (parseIntJS (jsOrStr activeThreadId "0")) then true
  else false

/-!
## Persistent Local Store data model

Embedded from src/src/lib/storage/types.ts. Thread and message metadata
bags are JS objects with optional keys; for the keys the claims depend on
(serverThreadId, localThreadId, id, is_upvote, is_downvote) presence is
tracked explicitly: the outer Option is key presence, and for the id
fields the inner Option is an explicit null value. Object-spread
semantics (later keys override earlier ones) are modelled per key.
-/

/-- StoredThread.metadata: the serverThreadId and localThreadId keys.
none = key absent, some none = key present with value null,
some (some n) = key present with numeric value n. -/
structure ThreadMeta where
  serverThreadId : Option (Option Int)
  localThreadId : Option (Option Int)
  deriving DecidableEq, Repr

/-- StoredMessage.metadata: the keys the claims depend on. -/
structure MsgMeta where
  id : Option Int
  is_upvote : Option Bool
  is_downvote : Option Bool
  deriving DecidableEq, Repr

/-- StoredThread record (types.ts). -/
structure StoredThread where
  threadId : String
  title : String
  createdAt : Nat
  updatedAt : Nat
  messageIds : List String
  metadata : ThreadMeta
  deriving DecidableEq, Repr

/-- StoredMessage record (types.ts). -/
structure StoredMessage where
  messageId : String
  threadId : String
  role : String
  content : String
  createdAt : Nat
  metadata : MsgMeta
  deriving DecidableEq, Repr

/-- SessionMetadata record (types.ts). -/
structure SessionMetadata where
  sessionId : String
  createdAt : Nat
  lastSyncedAt : Option Nat
  threadCount : Nat
  lastTokenRefresh : Option Nat
  deriving DecidableEq, Repr

/-- The three IndexedDB object stores: sessions (at most one record at the
generated session id), threads keyed by threadId, messages keyed by
messageId. -/
structure Store where
  session : Option SessionMetadata
  threads : List StoredThread
  messages : List StoredMessage
  deriving DecidableEq, Repr

/-- IDBObjectStore.put on the threads store: replace the record with the
same key, or append when absent. A keyed store holds at most one record
per key, so replacing the first occurrence is the put semantics. -/
def putThread : List StoredThread → StoredThread → List StoredThread
  | [], t => [t]
  | x :: xs, t => if x.threadId = t.threadId then t :: xs else x :: putThread xs t

/-- IDBObjectStore.put on the messages store. -/
def putMessage : List StoredMessage → StoredMessage → List StoredMessage
  | [], m => [m]
  | x :: xs, m => if x.messageId = m.messageId then m :: xs else x :: putMessage xs m

/-- store.get on the threads store (success path of getThread). -/
def getThreadPure (s : Store) (threadId : String) : Option StoredThread :=
  s.threads.find? (fun t => t.threadId = threadId)

/-- store.get on the messages store (success path of getMessage). -/
def getMessagePure (s : Store) (messageId : String) : Option StoredMessage :=
  s.messages.find? (fun m => m.messageId = messageId)

/-- Success path of getMessagesByThreadId: the threadId index lookup
followed by the ascending sort on createdAt (a stable JS Array.sort with
comparator a.createdAt - b.createdAt). -/
def getMessagesByThreadIdPure (s : Store) (threadId : String) : List StoredMessage :=
  (s.messages.filter (fun m => m.threadId = threadId)).insertionSort
    (fun a b => a.createdAt ≤ b.createdAt)

/-- Best-effort secondary write after a thread creation: increment the
Session threadCount when a session record exists (createThread, lines
188-197 of indexeddb.ts, with createOrUpdateSessionMetadata collapsing to
the threadCount patch). -/
def bumpThreadCount (s : Store) : Store :=
  match s.session with
  | some sess => { s with session := some { sess with threadCount := sess.threadCount + 1 } }
  | none => s

/-- Best-effort secondary write after a thread deletion: decrement the
Session threadCount when a session record exists and the count is
positive. -/
def dropThreadCount (s : Store) : Store :=
  match s.session with
  | some sess =>
    if 0 < sess.threadCount then
      { s with session := some { sess with threadCount := sess.threadCount - 1 } }
    else s
  | none => s

/-- createThread (indexeddb.ts lines 165-208), success path: build the
fresh record with empty messageIds, put it (overwriting any record under
the same key), then bump the session threadCount. Date.now() is passed in
as now. -/
def createThreadStore (s : Store) (now : Nat) (threadId title : String)
    (meta : ThreadMeta) : Store × StoredThread :=
  let t : StoredThread :=
    { threadId := threadId, title := title, createdAt := now, updatedAt := now,
      messageIds := [], metadata := meta }
  (bumpThreadCount { s with threads := putThread s.threads t }, t)

/-- updateThread (indexeddb.ts lines 233-268), success path, restricted to
the messageIds patch used by migrateThread: read the existing record,
merge, refresh updatedAt, put. Errors when the thread is absent. -/
def updateThreadMessageIds (s : Store) (now : Nat) (threadId : String)
    (messageIds : List String) : Except String Store :=
  match getThreadPure s threadId with
  | none => .error ("Thread " ++ threadId ++ " not found")
  | some existing =>
    let updated : StoredThread := { existing with messageIds := messageIds, updatedAt := now }
    .ok { s with threads := putThread s.threads updated }


/-!
## Identifier migration (migrateThread) and local thread creation
-/

/-- The message-repointing loop of migrateThread (indexeddb.ts lines
350-368): each message of the old thread is rewritten with the new
threadId and put back into the messages store, in order. Only the
messages store changes. -/
def repointMessages (msgs : List StoredMessage) (newId : String) (st : Store) : Store :=
  msgs.foldl (fun acc m => { acc with messages := putMessage acc.messages { m with threadId := newId } }) st

/-- The metadata object literal built by migrateThread (indexeddb.ts
lines 342-346). The source writes the two computed keys first and spreads
the old metadata afterwards, so a key present in the old metadata
overrides the computed value; a key absent from the old metadata keeps
the computed value. Both keys are present in the result. -/
def migrateMeta (computedServer computedLocal : Option Int) (old : ThreadMeta) :
    ThreadMeta :=
  { serverThreadId := some (match old.serverThreadId with
      | some v => v
      | none => computedServer),
    localThreadId := some (match old.localThreadId with
      | some v => v
      | none => computedLocal) }

/-- migrateThread (indexeddb.ts lines 325-402), success path: read the
old thread (error when absent), read its messages, create the new thread
record (put plus session count bump), repoint every message to the new
id, write the collected messageIds onto the new thread, delete the old
thread record and drop the session count. The value resolved to the
caller is the output of createThread, whose messageIds list is empty.
Date.now() is passed in as now. -/
def migrateThreadStore (s : Store) (now : Nat) (oldThreadId newThreadId : String)
    (title : Option String) : Except String (Store × StoredThread) :=
  match getThreadPure s oldThreadId with
  | none => .error ("Thread " ++ oldThreadId ++ " not found")
  | some oldThread =>
    let msgs := getMessagesByThreadIdPure s oldThreadId
    let threadTitle := jsOrStr title oldThread.title
    let computedServer : Option Int :=
      if intGtZero (parseIntJS newThreadId) then parseIntJS newThreadId else none
    let computedLocal : Option Int :=
      if intLtZero (parseIntJS oldThreadId) then parseIntJS oldThreadId else none
    let created := createThreadStore s now newThreadId threadTitle
      (migrateMeta computedServer computedLocal oldThread.metadata)
    let s2 : Store := repointMessages msgs newThreadId created.1
    let updatedMessageIds := msgs.map (fun m => m.messageId)
    match updateThreadMessageIds s2 now newThreadId updatedMessageIds with
    | .error e => .error e
    | .ok s3 =>
      let remaining := s3.threads.filter (fun t => t.threadId ≠ oldThreadId)
      let s4 : Store := { s3 with threads := remaining }
      .ok (dropThreadCount s4, created.2)

/-- migrateThread interrupted immediately before the deletion of the old
thread record: every step up to and including the messageIds update has
completed, the old record and the final session count drop have not been
reached. This is the crash window between steps (d) and (e) of the
migration transaction. -/
def migrateThreadNoDelete (s : Store) (now : Nat) (oldThreadId newThreadId : String)
    (title : Option String) : Except String Store :=
  match getThreadPure s oldThreadId with
  | none => .error ("Thread " ++ oldThreadId ++ " not found")
  | some oldThread =>
    let msgs := getMessagesByThreadIdPure s oldThreadId
    let threadTitle := jsOrStr title oldThread.title
    let computedServer : Option Int :=
      if intGtZero (parseIntJS newThreadId) then parseIntJS newThreadId else none
    let computedLocal : Option Int :=
      if intLtZero (parseIntJS oldThreadId) then parseIntJS oldThreadId else none
    let created := createThreadStore s now newThreadId threadTitle
      (migrateMeta computedServer computedLocal oldThread.metadata)
    let s2 : Store := repointMessages msgs newThreadId created.1
    let updatedMessageIds := msgs.map (fun m => m.messageId)
    updateThreadMessageIds s2 now newThreadId updatedMessageIds

/-- createNewThread (PublicAgentSessionContext, lines 153-176), store
effect: a local thread whose id is the negation of Date.now() rendered in
decimal, stored with metadata localThreadId = parseInt(threadId) and
serverThreadId written explicitly null. -/
def createNewThreadStore (s : Store) (now : Nat) (title : String) :
    Store × StoredThread :=
  let threadId := toString (-(now : Int))
  createThreadStore s now threadId title
    { localThreadId := some (parseIntJS threadId), serverThreadId := some none }

/-!
## Read and write failure discipline (claim C6)

Control-flow models of the IndexedDB layer functions, parameterised by
the outcome of each awaited or requested step. Every read in
indexeddb.ts has the shape

  try { const db = await openDatabase(); return new Promise(...) }
  catch (error) { log; return null-or-empty }

The awaited openDatabase rejection is caught, so the read resolves to the
empty result. The promise built around the record request is returned
without an await, so its rejection bypasses the catch block and the
caller observes a rejected promise. Writes use the same shape but their
catch block rethrows, so every failure propagates.
-/

/-- getThread (indexeddb.ts lines 210-231) failure behaviour. -/
def getThreadFlow (openResult : Except String Unit)
    (reqResult : Except String (Option StoredThread)) :
    Except String (Option StoredThread) :=
  match openResult with
  | .error _ => .ok none
  | .ok _ => reqResult

/-- getSessionMetadata (indexeddb.ts lines 99-121) failure behaviour. -/
def getSessionMetadataFlow (openResult : Except String Unit)
    (reqResult : Except String (Option SessionMetadata)) :
    Except String (Option SessionMetadata) :=
  match openResult with
  | .error _ => .ok none
  | .ok _ => reqResult

/-- getAllThreads (indexeddb.ts lines 404-429) failure behaviour. -/
def getAllThreadsFlow (openResult : Except String Unit)
    (reqResult : Except String (List StoredThread)) :
    Except String (List StoredThread) :=
  match openResult with
  | .error _ => .ok []
  | .ok _ => reqResult

/-- getMessage (indexeddb.ts lines 480-501) failure behaviour. -/
def getMessageFlow (openResult : Except String Unit)
    (reqResult : Except String (Option StoredMessage)) :
    Except String (Option StoredMessage) :=
  match openResult with
  | .error _ => .ok none
  | .ok _ => reqResult

/-- getMessagesByThreadId (indexeddb.ts lines 503-528) failure
behaviour. -/
def getMessagesByThreadIdFlow (openResult : Except String Unit)
    (reqResult : Except String (List StoredMessage)) :
    Except String (List StoredMessage) :=
  match openResult with
  | .error _ => .ok []
  | .ok _ => reqResult

/-- createThread (indexeddb.ts lines 165-208) failure behaviour: the
catch block rethrows the awaited openDatabase failure, and the returned
request promise rejects on request failure, so both propagate. -/
def createThreadFlow (openResult : Except String Unit)
    (reqResult : Except String StoredThread) : Except String StoredThread :=
  match openResult with
  | .error e => .error e
  | .ok _ => reqResult

/-- createOrUpdateSessionMetadata (indexeddb.ts lines 123-160) failure
behaviour: failures of openDatabase, of the awaited getSessionMetadata
and of the put request all reach the caller. -/
def createOrUpdateSessionMetadataFlow (openResult : Except String Unit)
    (existingResult : Except String (Option SessionMetadata))
    (reqResult : Except String SessionMetadata) : Except String SessionMetadata :=
  match openResult with
  | .error e => .error e
  | .ok _ =>
    match existingResult with
    | .error e => .error e
    | .ok _ => reqResult

/-- updateThread (indexeddb.ts lines 233-268) failure behaviour: the read
of the existing record, a missing record, the openDatabase call and the
put request all propagate. -/
def updateThreadFlow (readResult : Except String (Option StoredThread))
    (openResult : Except String Unit)
    (reqResult : Except String StoredThread) : Except String StoredThread :=
  match readResult with
  | .error e => .error e
  | .ok none => .error "Thread not found"
  | .ok (some _) =>
    match openResult with
    | .error e => .error e
    | .ok _ => reqResult

/-- createMessage (indexeddb.ts lines 434-478) failure behaviour. -/
def createMessageFlow (openResult : Except String Unit)
    (reqResult : Except String StoredMessage) : Except String StoredMessage :=
  match openResult with
  | .error e => .error e
  | .ok _ => reqResult

/-- updateMessage (indexeddb.ts lines 530-564) failure behaviour. -/
def updateMessageFlow (readResult : Except String (Option StoredMessage))
    (openResult : Except String Unit)
    (reqResult : Except String StoredMessage) : Except String StoredMessage :=
  match readResult with
  | .error e => .error e
  | .ok none => .error "Message not found"
  | .ok (some _) =>
    match openResult with
    | .error e => .error e
    | .ok _ => reqResult

/-- deleteThread (indexeddb.ts lines 270-314) failure behaviour: the
openDatabase call, the awaited message-listing read, each awaited
deleteMessage call and the delete transaction all propagate. -/
def deleteThreadFlow (openResult : Except String Unit)
    (msgsResult : Except String (List StoredMessage))
    (reqResult : Except String Unit) : Except String Unit :=
  match openResult with
  | .error e => .error e
  | .ok _ =>
    match msgsResult with
    | .error e => .error e
    | .ok _ => reqResult

/-- deleteMessage (indexeddb.ts lines 566-612) failure behaviour: the
openDatabase call, the awaited getMessage read and the delete transaction
propagate; a missing message resolves without error. -/
def deleteMessageFlow (openResult : Except String Unit)
    (readResult : Except String (Option StoredMessage))
    (reqResult : Except String Unit) : Except String Unit :=
  match openResult with
  | .error e => .error e
  | .ok _ =>
    match readResult with
    | .error e => .error e
    | .ok none => .ok ()
    | .ok (some _) => reqResult

/-!
## Stream Protocol Parser (the onmessage handler of useChat.tsx)

The handler is embedded as a transition function on the state it
mutates: the in-memory message list, the localStorage active_thread_id
pointer, the streaming accumulators and flags. Writes that leave this
state (IndexedDB saves, URL rewriting, the window bridging callbacks,
setTimeout, toast) are external effects and are not part of the state.
-/

/-- JS truthiness of a possibly absent number: 0 and NaN are falsy. -/
def intTruthy : Option Int → Bool
  | none => false
  | some n => n ≠ 0

/-- parseInt applied to a possibly null JS value: null coerces to a
non-numeric string, giving NaN. -/
def parseIntOfOpt : Option String → Option Int
  | none => none
  | some s => parseIntJS s

/-- The output object of a terminal frame. The wire format of spec
section 6 places success, answer, agent_response_id, thread_id,
chat_thread_name, followup_questions, references, guardrail_triggered,
blocked and message here; errorDetails models the output.error.details
path the error branch reads. -/
structure StreamOutput where
  success : Option Bool
  answer : Option String
  agent_response_id : Option Int
  thread_id : Option Int
  chat_thread_name : Option String
  followup_questions : Option (List String)
  references : Option (List String)
  guardrail_triggered : Option Bool
  blocked : Option Bool
  message : Option String
  errorDetails : Option String
  deriving DecidableEq, Repr

/-- One parsed stream frame. The success field here is the TOP-LEVEL
success property of the frame object, which is what the source tests at
line 371 (parsedStreamData?.success); the output field is the nested
output object. -/
structure StreamFrame where
  step : Option String
  delta : Option String
  message : Option String
  success : Option Bool
  output : Option StreamOutput
  deriving DecidableEq, Repr

/-- An entry of the in-memory message list owned by the chat hook,
mirroring the object literals appended in useChat.tsx. A none field is
absent (undefined) in the corresponding literal. Numeric ids are rendered
in decimal. The reflectionContents field is omitted: the source resets
that ref at submit and its only push site is commented out, so it is
always empty. -/
structure ChatMsg where
  role : String
  content : Option String
  query : Option String
  id : Option String
  is_upvote : Bool
  is_downvote : Bool
  followUpQuestions : Option (List String)
  references : Option (List String)
  reflectionEvents : Option (List (Option String))
  currentChat : Option Bool
  guardrail_triggered : Bool
  blocked : Bool
  deriving DecidableEq, Repr

/-- Per-submission context of the onmessage closure: the decrypted URL
thread id and the submitted query (question || input). -/
structure ChatCtx where
  currentId : Option String
  query : String
  deriving DecidableEq, Repr

/-- The state the onmessage handler reads and writes. poisoned is
hasErrorOccurredRef; reflectionEvents is the ordered narration log
(reflectionEventsRef); thoughtProcess is the narration delta buffer
(thoughtProcessRef); streamContent is the answer accumulator
(streamContentRef); streamEvents is the latest-narration line;
activeThreadId is the localStorage active_thread_id pointer. -/
structure ChatState where
  messages : List ChatMsg
  activeThreadId : Option String
  streaming : Bool
  isLoading : Bool
  streamContent : String
  thoughtProcess : String
  reflectionEvents : List (Option String)
  streamEvents : List (Option String)
  isReflecting : Bool
  poisoned : Bool
  deriving DecidableEq, Repr

/-- The assistant message appended by the non-success end branch
(useChat.tsx lines 392-408): the error marker prefix followed by
output.message, empty followups and references, the URL thread id as the
message id. -/
def endFailureMsg (ctx : ChatCtx) (o : StreamOutput) : ChatMsg :=
  { role := "assistant",
    content := some ("error:: " ++ jsStr o.message),
    query := some ctx.query,
    id := ctx.currentId,
    is_upvote := false, is_downvote := false,
    followUpQuestions := some [], references := some [],
    reflectionEvents := none, currentChat := none,
    guardrail_triggered := o.guardrail_triggered.getD false,
    blocked := o.blocked.getD false }

/-- The completed assistant message appended by the success end branch
(useChat.tsx lines 476-495). savedReflection is the copy of the narration
log taken just before the append. -/
def endSuccessMsg (ctx : ChatCtx) (savedReflection : List (Option String))
    (o : StreamOutput) : ChatMsg :=
  { role := "assistant",
    content := o.answer,
    query := some ctx.query,
    id := o.agent_response_id.map (fun n => toString n),
    is_upvote := false, is_downvote := false,
    followUpQuestions := o.followup_questions,
    references := o.references,
    reflectionEvents := some savedReflection,
    currentChat := some true,
    guardrail_triggered := o.guardrail_triggered.getD false,
    blocked := o.blocked.getD false }

/-- The assistant message appended by the error branch (useChat.tsx lines
630-646): the error marker prefix followed by output.error.details when
present and non-empty, else the frame message; both guardrail_triggered
and blocked are written from output.blocked in the source. -/
def errorFrameMsg (ctx : ChatCtx) (f : StreamFrame) : ChatMsg :=
  { role := "assistant",
    content := some ("error:: "
      ++ jsStr (jsOrOpt (f.output.bind (fun o => o.errorDetails)) f.message)),
    query := some ctx.query,
    id := ctx.currentId,
    is_upvote := false, is_downvote := false,
    followUpQuestions := some [], references := some [],
    reflectionEvents := none, currentChat := none,
    guardrail_triggered := (f.output.bind (fun o => o.blocked)).getD false,
    blocked := (f.output.bind (fun o => o.blocked)).getD false }

/-- The onmessage handler (useChat.tsx lines 330-683) as a transition on
ChatState, in program order: the poisoned guard, setStreaming(true), the
reflection append, the tools_stream accumulation, then the
end or error or generic branch chain. An end frame without an output
object makes the source throw on the bare member access response.message
or response.thread_id; the model returns the state mutated up to that
point. -/
def onMessage (ctx : ChatCtx) (st : ChatState) (f : StreamFrame) : ChatState :=
  if st.poisoned then st
  else
    let s1 := { st with streaming := true }
    let hasReflection := f.step == some "reflection_end" || f.step == some "reflection_skip"
    let s2 := if hasReflection then
        { s1 with reflectionEvents := s1.reflectionEvents ++ [f.message] }
      else s1
    let s3 := if f.step == some "tools_stream" then
        { s2 with isReflecting := true,
                  thoughtProcess := s2.thoughtProcess ++ jsStr f.delta,
                  streamEvents := [] }
      else s2
    if f.step == some "end" then
      match f.output with
      | none => s3
      | some o =>
        if f.success ≠ some true then
          { s3 with messages := s3.messages ++ [endFailureMsg ctx o] }
        else
          let responseThreadId := o.thread_id.map (fun n => toString n)
          let isLocal := intLtZero (parseIntOfOpt ctx.currentId)
          let belongs := isResponseForCurrentThread s3.activeThreadId
            responseThreadId ctx.currentId isLocal
          let s4 := if belongs && intTruthy o.thread_id then
              { s3 with activeThreadId := responseThreadId }
            else s3
          if belongs then
            { s4 with messages := s4.messages ++ [endSuccessMsg ctx s4.reflectionEvents o] }
          else s4
    else if f.step == some "error" then
      { s3 with poisoned := true,
                messages := s3.messages ++ [errorFrameMsg ctx f],
                streaming := false, isLoading := false, streamContent := "" }
    else
      if f.step == some "assistant_stream" then
        let s4 := { s3 with streamEvents := [], isLoading := false }
        let s5 := if s4.isReflecting then
            { s4 with reflectionEvents := s4.reflectionEvents ++ [some s4.thoughtProcess],
                      isReflecting := false }
          else s4
        { s5 with streamContent := s5.streamContent ++ jsStr f.delta }
      else
        let s4 := { s3 with streamEvents := [f.message] }
        if f.message ≠ some "" then
          { s4 with reflectionEvents := s4.reflectionEvents ++ [f.message] }
        else s4

/-!
## Stream cancellation (claim C5)

The streaming submission path (useChat.tsx lines 245-317) builds a fresh
AbortController, then stores the abort closure resolved by
streamChatRequest into abortConnectionRef, overwriting the previous
value. No statement in handleSubmit invokes the previously stored
closure; the only call site of abortConnectionRef.current is the
component-unmount cleanup effect (lines 170-178). streamChatRequest
itself (ApiService) creates its own controller and returns a closure
aborting only that controller, never a previous one.
-/

/-- Orchestrator transport bookkeeping: one entry of aborted per started
transport in start order, and the index whose abort closure
abortConnectionRef currently stores. -/
structure OrchState where
  aborted : List Bool
  abortRef : Option Nat
  deriving DecidableEq, Repr

/-- A streaming submission: opens a new transport and stores its abort
closure in the ref. Existing transports are untouched. -/
def submitStream (s : OrchState) : OrchState :=
  { aborted := s.aborted ++ [false], abortRef := some s.aborted.length }

/-- The unmount cleanup effect: fire the stored abort closure and clear
the ref. -/
def unmountCleanup (s : OrchState) : OrchState :=
  match s.abortRef with
  | none => s
  | some i => { aborted := s.aborted.set i true, abortRef := none }

/-- Fresh orchestrator instance. -/
def orchInit : OrchState := { aborted := [], abortRef := none }

/-!
## Vote handlers (claim C9)

handleUpvoteclick and handleDownvoteclick of the MessageActions component
(src/src/app/recoverPassword/page.tsx lines 253-326 and 333-410).
-/

/-- In-memory message as the component sees it after the currentMessage
normalization that coerces missing vote flags to false (lines
193-203). -/
structure VoteMsg where
  id : Option Int
  role : String
  content : String
  is_upvote : Bool
  is_downvote : Bool
  deriving DecidableEq, Repr

/-- State the vote handlers touch: the in-memory list and the IndexedDB
message records reachable for the thread. -/
structure VoteState where
  messages : List VoteMsg
  stored : List StoredMessage
  deriving DecidableEq, Repr

/-- Environment of one vote click: availability of the api service and
the user record, and the id carried by a successful remote feedback
response (none models a failed call or a response without data.id). -/
structure VoteEnv where
  apiPresent : Bool
  userPresent : Bool
  remoteId : Option Int
  deriving DecidableEq, Repr

/-- The IndexedDB lookup predicate shared by both vote handlers (lines
286-304): primary match of metadata.id against the message id, fallback
match on assistant role and trim-equal non-empty content. -/
def voteMatches (cur : VoteMsg) (m : StoredMessage) : Bool :=
  (match m.metadata.id, cur.id with
   | some a, some b => a == b
   | _, _ => false)
  || (m.role == "assistant" && m.content ≠ "" && cur.content ≠ ""
      && m.content.trim == cur.content.trim)

/-- updateMessage applied to the record the lookup finds, spreading the
old metadata and overriding the two vote keys. -/
def applyVoteStored (stored : List StoredMessage) (cur : VoteMsg) (up down : Bool) :
    List StoredMessage :=
  match stored.find? (fun m => voteMatches cur m) with
  | none => stored
  | some sm => stored.map (fun x =>
      if x.messageId = sm.messageId then
        { x with metadata :=
            { x.metadata with is_upvote := some up, is_downvote := some down } }
      else x)

/-- handleUpvoteclick as a state transition. The fallback argument models
the message prop used when messages[index] is absent. Returns the new
state and whether the remote feedback call was issued. The in-memory
update fires only when the response carries a truthy data.id and flips
the flags of every message whose id equals it. -/
def handleUpvoteClick (env : VoteEnv) (st : VoteState) (index : Nat)
    (fallback : VoteMsg) : VoteState × Bool :=
  let cur := (st.messages.get? index).getD fallback
  if cur.is_upvote || !env.apiPresent then (st, false)
  else if !env.userPresent then (st, false)
  else
    match env.remoteId with
    | none => (st, true)
    | some rid =>
      if rid == 0 then (st, true)
      else
        let messages := st.messages.map (fun m =>
          if m.id == some rid then { m with is_upvote := true, is_downvote := false }
          else m)
        ({ messages := messages, stored := applyVoteStored st.stored cur true false }, true)

/-- handleDownvoteclick as a state transition, symmetric to the upvote
handler (the feedback dialog it opens is UI state outside this model). -/
def handleDownvoteClick (env : VoteEnv) (st : VoteState) (index : Nat)
    (fallback : VoteMsg) : VoteState × Bool :=
  let cur := (st.messages.get? index).getD fallback
  if cur.is_downvote || !env.apiPresent then (st, false)
  else if !env.userPresent then (st, false)
  else
    match env.remoteId with
    | none => (st, true)
    | some rid =>
      if rid == 0 then (st, true)
      else
        let messages := st.messages.map (fun m =>
          if m.id == some rid then { m with is_downvote := true, is_upvote := false }
          else m)
        ({ messages := messages, stored := applyVoteStored st.stored cur false true }, true)

/-!
## Helper lemmas
-/

theorem find?_filter_of_imp {α : Type} (p q : α → Bool)
    (h : ∀ x, p x = true → q x = true) :
    ∀ l : List α, (l.filter q).find? p = l.find? p := by
  intro l
  induction l with
  | nil => rfl
  | cons x xs ih =>
    by_cases hq : q x = true
    · by_cases hp : p x = true
      · simp [List.filter_cons, hq, List.find?_cons, hp]
      · simp [List.filter_cons, hq, List.find?_cons, hp, ih]
    · have hp : p x = false := by
        cases hpx : p x with
        | false => rfl
        | true => exact absurd (h x hpx) hq
      simp [List.filter_cons, hq, List.find?_cons, hp, ih]

theorem find?_map_invariant {α : Type} (p : α → Bool) (f : α → α)
    (h : ∀ x, p (f x) = p x) :
    ∀ l : List α, (l.map f).find? p = (l.find? p).map f := by
  intro l
  induction l with
  | nil => rfl
  | cons x xs ih =>
    by_cases hp : p x = true
    · simp [List.map_cons, List.find?_cons, h x, hp]
    · have hp0 : p x = false := by simpa using hp
      simp [List.map_cons, List.find?_cons, h x, hp0, ih]

theorem putThread_find?_self (t : StoredThread) :
    ∀ ts : List StoredThread,
      (putThread ts t).find? (fun x => x.threadId = t.threadId) = some t := by
  intro ts
  induction ts with
  | nil => simp [putThread, List.find?_cons]
  | cons x xs ih =>
    by_cases h : x.threadId = t.threadId
    · simp [putThread, h, List.find?_cons]
    · simp [putThread, h, List.find?_cons, ih]

theorem putThread_keys_subset (t : StoredThread) :
    ∀ ts : List StoredThread, ∀ k ∈ (putThread ts t).map (fun x => x.threadId),
      k = t.threadId ∨ k ∈ ts.map (fun x => x.threadId) := by
  intro ts
  induction ts with
  | nil => intro k hk; simp [putThread] at hk; exact Or.inl hk
  | cons x xs ih =>
    intro k hk
    by_cases h : x.threadId = t.threadId
    · simp [putThread, h] at hk
      rcases hk with hk | hk
      · exact Or.inl hk
      · exact Or.inr (by simp [hk])
    · simp [putThread, h] at hk
      rcases hk with hk | hk
      · exact Or.inr (by simp [hk])
      · rcases ih k (by simpa using hk) with h1 | h1
        · exact Or.inl h1
        · exact Or.inr (by simp [h1])

theorem putThread_keys_nodup (t : StoredThread) :
    ∀ ts : List StoredThread, (ts.map (fun x => x.threadId)).Nodup →
      ((putThread ts t).map (fun x => x.threadId)).Nodup := by
  intro ts
  induction ts with
  | nil => intro _; simp [putThread]
  | cons x xs ih =>
    intro h
    simp only [List.map_cons, List.nodup_cons] at h
    by_cases hx : x.threadId = t.threadId
    · simp only [putThread, if_pos hx, List.map_cons, List.nodup_cons]
      exact ⟨by rw [← hx]; exact h.1, h.2⟩
    · simp only [putThread, if_neg hx, List.map_cons, List.nodup_cons]
      refine ⟨?_, ih h.2⟩
      intro hmem
      rcases putThread_keys_subset t xs _ hmem with h1 | h1
      · exact hx h1
      · exact h.1 h1

theorem putThread_length_of_mem (t : StoredThread) :
    ∀ ts : List StoredThread, (∃ x ∈ ts, x.threadId = t.threadId) →
      (putThread ts t).length = ts.length := by
  intro ts
  induction ts with
  | nil => rintro ⟨x, hx, _⟩; simp at hx
  | cons y ys ih =>
    rintro ⟨x, hx, hxid⟩
    by_cases h : y.threadId = t.threadId
    · simp [putThread, h]
    · rcases List.mem_cons.mp hx with rfl | hx2
      · exact absurd hxid h
      · simp [putThread, h, ih ⟨x, hx2, hxid⟩]

theorem filter_key_length_le_one {α β : Type} [DecidableEq β] (f : α → β) (k : β) :
    ∀ l : List α, ((l.map f).Nodup) →
      (l.filter (fun x => f x = k)).length ≤ 1 := by
  intro l
  induction l with
  | nil => intro _; simp
  | cons x xs ih =>
    intro h
    simp only [List.map_cons, List.nodup_cons] at h
    by_cases hx : f x = k
    · have hzero : xs.filter (fun y => f y = k) = [] := by
        rw [List.filter_eq_nil_iff]
        intro a ha
        simp only [decide_eq_true_eq]
        intro hak
        exact h.1 (List.mem_map.mpr ⟨a, ha, by rw [hak]; exact hx.symm⟩)
      simp [List.filter_cons, hx, hzero]
    · simp only [List.filter_cons, hx]
      simpa using ih h.2

theorem bumpThreadCount_threads (s : Store) : (bumpThreadCount s).threads = s.threads := by
  unfold bumpThreadCount
  cases s.session <;> rfl

theorem dropThreadCount_threads (s : Store) : (dropThreadCount s).threads = s.threads := by
  unfold dropThreadCount
  cases s.session with
  | none => rfl
  | some sess => by_cases h : 0 < sess.threadCount <;> simp [h]

theorem repointMessages_threads (newId : String) :
    ∀ (msgs : List StoredMessage) (st : Store),
      (repointMessages msgs newId st).threads = st.threads := by
  intro msgs
  induction msgs with
  | nil => intro st; rfl
  | cons m ms ih =>
    intro st
    have h := ih { st with messages := putMessage st.messages { m with threadId := newId } }
    simpa [repointMessages] using h

theorem repointMessages_session (newId : String) :
    ∀ (msgs : List StoredMessage) (st : Store),
      (repointMessages msgs newId st).session = st.session := by
  intro msgs
  induction msgs with
  | nil => intro st; rfl
  | cons m ms ih =>
    intro st
    have h := ih { st with messages := putMessage st.messages { m with threadId := newId } }
    simpa [repointMessages] using h

theorem putMessage_keys_subset (m : StoredMessage) :
    ∀ ms : List StoredMessage, ∀ k ∈ (putMessage ms m).map (fun x => x.messageId),
      k = m.messageId ∨ k ∈ ms.map (fun x => x.messageId) := by
  intro ms
  induction ms with
  | nil => intro k hk; simp [putMessage] at hk; exact Or.inl hk
  | cons x xs ih =>
    intro k hk
    by_cases h : x.messageId = m.messageId
    · simp [putMessage, h] at hk
      rcases hk with hk | hk
      · exact Or.inl hk
      · exact Or.inr (by simp [hk])
    · simp [putMessage, h] at hk
      rcases hk with hk | hk
      · exact Or.inr (by simp [hk])
      · rcases ih k (by simpa using hk) with h1 | h1
        · exact Or.inl h1
        · exact Or.inr (by simp [h1])

theorem putMessage_keys_nodup (m : StoredMessage) :
    ∀ ms : List StoredMessage, (ms.map (fun x => x.messageId)).Nodup →
      ((putMessage ms m).map (fun x => x.messageId)).Nodup := by
  intro ms
  induction ms with
  | nil => intro _; simp [putMessage]
  | cons x xs ih =>
    intro h
    simp only [List.map_cons, List.nodup_cons] at h
    by_cases hx : x.messageId = m.messageId
    · simp only [putMessage, if_pos hx, List.map_cons, List.nodup_cons]
      exact ⟨by rw [← hx]; exact h.1, h.2⟩
    · simp only [putMessage, if_neg hx, List.map_cons, List.nodup_cons]
      refine ⟨?_, ih h.2⟩
      intro hmem
      rcases putMessage_keys_subset m xs _ hmem with h1 | h1
      · exact hx h1
      · exact h.1 h1

/-!
## Claim theorems
-/

/-- Claim C3, counterexample: with the active-thread pointer at a local id
(-5) different from both the response thread id (42) and the URL thread
id (-7), while the current thread is local, isResponseForCurrentThread
attributes the response to the current thread (returns true), contrary to
the claim that it returns false for every such response. -/
theorem C3_counterexample :
    isResponseForCurrentThread (some "-5") (some "42") (some "-7") true = true := by
  decide

/-- Claim C3 (amended): a response whose thread id differs from both the
active-thread pointer and the URL thread id, arriving while the currently
open thread is local, is not attributed to the current thread PROVIDED
the active-thread pointer does not itself parse to a negative integer;
when it does parse negative, rule 3 attributes any response carrying a
thread id to the current thread. -/
theorem C3_reconciliation_gating (a r c : Option String)
    (h1 : jsEqOpt a r = false) (h2 : jsEqOpt a c = false)
    (h3 : intLtZero (parseIntJS (jsOrStr a "0")) = false) :
    isResponseForCurrentThread a r c true = false := by
  simp [isResponseForCurrentThread, h1, h2, h3]

/-- Claim C3 witness: concrete instance of the amended gating statement,
with the active pointer at a server id. -/
theorem C3_reconciliation_gating_witness :
    jsEqOpt (some "7") (some "42") = false
    ∧ jsEqOpt (some "7") (some "-7") = false
    ∧ intLtZero (parseIntJS (jsOrStr (some "7") "0")) = false
    ∧ isResponseForCurrentThread (some "7") (some "42") (some "-7") true = false :=
  ⟨by decide, by decide, by decide,
    C3_reconciliation_gating (some "7") (some "42") (some "-7")
      (by decide) (by decide) (by decide)⟩

/-- Claim C6, counterexample: getThread rejects when the record request
fails after the database opened, contradicting the claim that every read
operation never rejects on any underlying failure. -/
theorem C6_counterexample :
    getThreadFlow (.ok ()) (.error "Failed to get thread") =
      .error "Failed to get thread" := rfl

/-- Claim C6 (amended): every read of the local store resolves to null or
an empty list when opening the database fails, but a failure of the
record request after the database opened rejects and reaches the caller;
every write operation propagates its failures. -/
theorem C6_store_error_discipline (e : String)
    (rqT : Except String (Option StoredThread))
    (rqS : Except String (Option SessionMetadata))
    (rqA : Except String (List StoredThread))
    (rqM : Except String (Option StoredMessage))
    (rqL : Except String (List StoredMessage))
    (wT : Except String StoredThread)
    (wM : Except String StoredMessage) :
    getThreadFlow (.error e) rqT = .ok none
    ∧ getSessionMetadataFlow (.error e) rqS = .ok none
    ∧ getAllThreadsFlow (.error e) rqA = .ok []
    ∧ getMessageFlow (.error e) rqM = .ok none
    ∧ getMessagesByThreadIdFlow (.error e) rqL = .ok []
    ∧ getThreadFlow (.ok ()) (.error e) = .error e
    ∧ getAllThreadsFlow (.ok ()) (.error e) = .error e
    ∧ createThreadFlow (.error e) wT = .error e
    ∧ createThreadFlow (.ok ()) (.error e) = .error e
    ∧ createOrUpdateSessionMetadataFlow (.ok ()) (.ok none) (.error e) = .error e
    ∧ (∀ wS : Except String SessionMetadata,
        createOrUpdateSessionMetadataFlow (.error e) (.ok none) wS = .error e)
    ∧ updateThreadFlow (.error e) (.ok ()) wT = .error e
    ∧ createMessageFlow (.ok ()) (.error e) = .error e
    ∧ updateMessageFlow (.error e) (.ok ()) wM = .error e
    ∧ deleteThreadFlow (.ok ()) (.error e) (.ok ()) = .error e
    ∧ deleteThreadFlow (.ok ()) (.ok []) (.error e) = .error e
    ∧ deleteMessageFlow (.ok ()) (.error e) (.ok ()) = .error e := by
  refine ⟨rfl, rfl, rfl, rfl, rfl, rfl, rfl, rfl, rfl, rfl, fun _ => rfl, rfl, rfl, rfl, rfl,
    rfl, rfl⟩

/-- Claim C5, counterexample: a second streaming submission started while
the first transport is still open leaves the first transport without a
cancellation signal (its aborted flag stays false), contrary to the claim
that the orchestrator cancels the first transport before starting the
second. -/
theorem C5_counterexample :
    (submitStream (submitStream orchInit)).aborted = [false, false]
    ∧ (submitStream (submitStream orchInit)).abortRef = some 1 := by
  decide

/-- Claim C5 (amended): a new streaming submission never fires the abort
token of any already started transport; it only opens a fresh transport
and overwrites the stored abort closure. The stored closure is fired only
by the component-unmount cleanup, which aborts the transport it points
to. -/
theorem C5_submission_does_not_cancel (s : OrchState) (i : Nat)
    (h : i < s.aborted.length) :
    (submitStream s).aborted.get? i = s.aborted.get? i
    ∧ (submitStream s).aborted.get? s.aborted.length = some false
    ∧ (unmountCleanup (submitStream s)).aborted.get? s.aborted.length = some true := by
  refine ⟨?_, ?_, ?_⟩
  · simp [submitStream, List.getElem?_append_left h]
  · simp [submitStream]
  · simp [unmountCleanup, submitStream]

/-- Claim C5 witness: concrete instance of the amended statement after one
prior submission. -/
theorem C5_submission_does_not_cancel_witness :
    0 < (submitStream orchInit).aborted.length
    ∧ (submitStream (submitStream orchInit)).aborted.get? 0
        = (submitStream orchInit).aborted.get? 0 :=
  ⟨by decide, (C5_submission_does_not_cancel (submitStream orchInit) 0 (by decide)).1⟩

/-!
## Concrete fixtures for claims C1 and C4
-/

/-- A session record as created lazily on first access. -/
def sessionFix : SessionMetadata :=
  { sessionId := "session_1", createdAt := 0, lastSyncedAt := none,
    threadCount := 0, lastTokenRefresh := none }

/-- Empty store holding only the session record. -/
def storeFix : Store := { session := some sessionFix, threads := [], messages := [] }

/-- Store after createNewThread at Date.now() = 17: one local thread with
id -17, metadata localThreadId = -17 and serverThreadId explicitly
null. -/
def storeLocalFix : Store := (createNewThreadStore storeFix 17 "New Chat").1

/-- The migration of the local thread -17 to the server id 42. -/
def migratedFix : Except String (Store × StoredThread) :=
  migrateThreadStore storeLocalFix 18 "-17" "42" (some "Capitals")

/-- Claim C1: after migrateThread moves a locally created thread (whose
metadata was initialized by createNewThread with serverThreadId null) to
the positive server id 42, the resulting record under id 42 carries
metadata.serverThreadId = null, because the spread of the old metadata in
migrateThread overrides the computed server id. This violates the sign
invariant id negative iff serverThreadId null: the code keeps a null
serverThreadId under a positive thread id. -/
theorem C1_migrated_thread_keeps_null_serverThreadId :
    (migratedFix.toOption.bind (fun r => getThreadPure r.1 "42")).map
        (fun t => t.metadata.serverThreadId) = some (some none)
    ∧ (migratedFix.toOption.bind (fun r => getThreadPure r.1 "-17")) = none := by
  decide

/-- Claim C10: createThread called with a threadId that already exists
silently overwrites the stored record (fresh title, empty messageIds,
reset timestamps) and still increments the Session threadCount, so the
count afterwards exceeds the number of distinct thread records. -/
theorem C10_createThread_overwrite_overcount
    (s : Store) (sess : SessionMetadata) (now : Nat) (tid title : String)
    (meta : ThreadMeta) (t0 : StoredThread)
    (hsess : s.session = some sess)
    (hmem : t0 ∈ s.threads) (hid : t0.threadId = tid)
    (hcount : sess.threadCount = s.threads.length) :
    (createThreadStore s now tid title meta).2.title = title
    ∧ (createThreadStore s now tid title meta).2.messageIds = []
    ∧ (createThreadStore s now tid title meta).2.createdAt = now
    ∧ (createThreadStore s now tid title meta).2.updatedAt = now
    ∧ getThreadPure (createThreadStore s now tid title meta).1 tid
        = some (createThreadStore s now tid title meta).2
    ∧ (createThreadStore s now tid title meta).1.threads.length = s.threads.length
    ∧ ((createThreadStore s now tid title meta).1.session.map
        (fun x => x.threadCount)) = some (sess.threadCount + 1)
    ∧ (createThreadStore s now tid title meta).1.threads.length
        < sess.threadCount + 1 := by
  have hthreads : (createThreadStore s now tid title meta).1.threads
      = putThread s.threads (createThreadStore s now tid title meta).2 := by
    simp [createThreadStore, bumpThreadCount_threads]
  have hlen : (createThreadStore s now tid title meta).1.threads.length
      = s.threads.length := by
    rw [hthreads]
    exact putThread_length_of_mem _ s.threads ⟨t0, hmem, hid⟩
  refine ⟨rfl, rfl, rfl, rfl, ?_, hlen, ?_, ?_⟩
  · show (createThreadStore s now tid title meta).1.threads.find?
        (fun t => t.threadId = tid) = _
    rw [hthreads]
    exact putThread_find?_self (createThreadStore s now tid title meta).2 s.threads
  · simp [createThreadStore, bumpThreadCount, hsess]
  · rw [hlen, hcount]
    exact Nat.lt_succ_self _

/-- Existing thread fixture for the C10 witness. -/
def c10Thread : StoredThread :=
  { threadId := "1", title := "Old title", createdAt := 0, updatedAt := 0,
    messageIds := ["m9"],
    metadata := { serverThreadId := some (some 1), localThreadId := none } }

/-- Session fixture counting the single existing thread. -/
def c10Sess : SessionMetadata :=
  { sessionId := "session_1", createdAt := 0, lastSyncedAt := none,
    threadCount := 1, lastTokenRefresh := none }

/-- Store fixture for the C10 witness. -/
def c10Store : Store :=
  { session := some c10Sess, threads := [c10Thread], messages := [] }

/-- Claim C10 witness: recreating thread 1 leaves one record but pushes
the count to 2. -/
theorem C10_createThread_overwrite_overcount_witness :
    c10Store.session = some c10Sess
    ∧ c10Thread ∈ c10Store.threads
    ∧ c10Thread.threadId = "1"
    ∧ c10Sess.threadCount = c10Store.threads.length
    ∧ (createThreadStore c10Store 5 "1" "Fresh"
        { serverThreadId := none, localThreadId := none }).1.threads.length
        < c10Sess.threadCount + 1 :=
  ⟨rfl, by decide, rfl, rfl,
    (C10_createThread_overwrite_overcount c10Store c10Sess 5 "1" "Fresh"
      { serverThreadId := none, localThreadId := none } c10Thread
      rfl (by decide) rfl rfl).2.2.2.2.2.2.2⟩

/-- Shared context fixture for the stream parser claims: URL thread id
-17, a concrete query. -/
def ctxFix : ChatCtx := { currentId := some "-17", query := "capital of France" }

/-- Fresh handler state fixture: empty message list, active pointer at
the local thread, not poisoned, not reflecting. -/
def chatStateFix : ChatState :=
  { messages := [], activeThreadId := some "-17", streaming := false,
    isLoading := true, streamContent := "", thoughtProcess := "",
    reflectionEvents := [], streamEvents := [], isReflecting := false,
    poisoned := false }

/-- Claim C7: an error frame on a non-poisoned state appends exactly one
error-tagged assistant message built from the frame error details or
message and sets the poisoned flag; every frame processed on a poisoned
state leaves the state, message list and accumulators included,
unchanged. -/
theorem C7_error_frame_poisoning (ctx : ChatCtx) (st : ChatState) (f g : StreamFrame)
    (hp : st.poisoned = false) (hf : f.step = some "error") :
    onMessage ctx st f =
      { st with poisoned := true,
                messages := st.messages ++ [errorFrameMsg ctx f],
                streaming := false, isLoading := false, streamContent := "" }
    ∧ (onMessage ctx st f).poisoned = true
    ∧ (∀ st2 : ChatState, st2.poisoned = true → onMessage ctx st2 g = st2) := by
  have hmain : onMessage ctx st f =
      { st with poisoned := true,
                messages := st.messages ++ [errorFrameMsg ctx f],
                streaming := false, isLoading := false, streamContent := "" } := by
    simp [onMessage, hp, hf]
  refine ⟨hmain, by rw [hmain], ?_⟩
  intro st2 h2
  simp [onMessage, h2]

/-- Error frame fixture used by the C7 witness. -/
def c7Frame : StreamFrame :=
  { step := some "error", delta := none, message := some "rate limited",
    success := none, output := none }

/-- Claim C7 witness: the poisoned flag is set by a concrete error
frame. -/
theorem C7_error_frame_poisoning_witness :
    chatStateFix.poisoned = false ∧ c7Frame.step = some "error"
    ∧ (onMessage ctxFix chatStateFix c7Frame).poisoned = true :=
  ⟨rfl, rfl,
    (C7_error_frame_poisoning ctxFix chatStateFix c7Frame c7Frame rfl rfl).2.1⟩

/-- Reflection-terminator state fixture: the handler is mid-reflection. -/
def c8State : ChatState := { chatStateFix with isReflecting := true }

/-- Reflection-terminator frame fixture. -/
def c8Frame : StreamFrame :=
  { step := some "reflection_end", delta := none, message := some "done",
    success := none, output := none }

/-- Claim C8, counterexample: a reflection_end frame with message done,
processed while isReflecting is set, appends the message to the narration
log twice (once in the reflection branch and once in the generic progress
branch) and leaves isReflecting set, contrary to the claim of a single
append, a cleared flag and no other state change. -/
theorem C8_counterexample :
    (onMessage ctxFix c8State c8Frame).reflectionEvents = [some "done", some "done"]
    ∧ (onMessage ctxFix c8State c8Frame).isReflecting = true := by
  decide

/-- Claim C8 (amended): on a reflection_end or reflection_skip frame the
handler appends the frame message to the narration log in the reflection
branch and, when the message is non-empty, appends it a second time in
the generic progress branch; it also sets the latest-narration line to
the message and marks streaming, while the isReflecting flag is left
unchanged. -/
theorem C8_reflection_terminator (ctx : ChatCtx) (st : ChatState) (f : StreamFrame)
    (hp : st.poisoned = false)
    (hs : f.step = some "reflection_end" ∨ f.step = some "reflection_skip") :
    onMessage ctx st f =
      { st with streaming := true,
                streamEvents := [f.message],
                reflectionEvents := st.reflectionEvents ++ [f.message]
                  ++ (if f.message = some "" then [] else [f.message]) } := by
  rcases hs with hs | hs <;>
    by_cases hm : f.message = some "" <;>
      simp [onMessage, hp, hs, hm]

/-- Claim C8 witness: the amended statement at the concrete fixture. -/
theorem C8_reflection_terminator_witness :
    c8State.poisoned = false
    ∧ (c8Frame.step = some "reflection_end" ∨ c8Frame.step = some "reflection_skip")
    ∧ onMessage ctxFix c8State c8Frame =
      { c8State with streaming := true, streamEvents := [c8Frame.message], reflectionEvents := c8State.reflectionEvents ++ [c8Frame.message] ++ (if c8Frame.message = some "" then [] else [c8Frame.message]) } :=
  ⟨rfl, Or.inl rfl,
    C8_reflection_terminator ctxFix c8State c8Frame rfl (Or.inl rfl)⟩

/-- Success output fixture shaped as the section 6 wire format: the
success flag sits inside the output object. -/
def c2Output : StreamOutput :=
  { success := some true, answer := some "Paris", agent_response_id := some 7,
    thread_id := some 42, chat_thread_name := some "Capitals",
    followup_questions := some [], references := some [],
    guardrail_triggered := some false, blocked := some false,
    message := none, errorDetails := none }

/-- End frame carrying the wire-format output, with no top-level success
property. -/
def c2FrameWire : StreamFrame :=
  { step := some "end", delta := none, message := none, success := none,
    output := some c2Output }

/-- Claim C2, counterexample: an end frame shaped exactly as the section
6 wire format, with output.success = true and answer Paris, makes the
handler append the error-marker message (stringifying the absent
output.message) instead of a completed assistant message, because the
code branches on the top-level success property of the frame, which the
wire format does not carry. -/
theorem C2_counterexample :
    ((onMessage ctxFix chatStateFix c2FrameWire).messages.map (fun m => m.content))
      = [some "error:: undefined"] := by
  decide

/-- Claim C2 (amended): the end branch tests the TOP-LEVEL success
property of the frame, not output.success. When the top-level success is
not true (including every frame where success sits only inside output),
the handler appends the error-marker message built from output.message;
when the top-level success is true and the reconciler attributes the
response to the current thread, it appends the completed assistant
message carrying the answer, the server response id, references,
follow-up suggestions and the accumulated narration log. -/
theorem C2_end_frame_branching (ctx : ChatCtx) (st : ChatState) (f : StreamFrame)
    (o : StreamOutput) (hp : st.poisoned = false) (hstep : f.step = some "end")
    (ho : f.output = some o) :
    (f.success ≠ some true →
      onMessage ctx st f =
        { st with streaming := true, messages := st.messages ++ [endFailureMsg ctx o] })
    ∧ (f.success = some true →
      isResponseForCurrentThread st.activeThreadId
          (o.thread_id.map (fun n => toString n)) ctx.currentId
          (intLtZero (parseIntOfOpt ctx.currentId)) = true →
      (onMessage ctx st f).messages
        = st.messages ++ [endSuccessMsg ctx st.reflectionEvents o]) := by
  constructor
  · intro hne
    simp [onMessage, hp, hstep, ho, hne]
  · intro hsucc hbel
    by_cases ht : intTruthy o.thread_id = true <;>
      simp [onMessage, hp, hstep, ho, hsucc, hbel, ht]

/-- End frame as the code expects it: top-level success true. -/
def c2FrameTop : StreamFrame := { c2FrameWire with success := some true }

/-- Claim C2 witness: the amended statement at the concrete fixtures. -/
theorem C2_end_frame_branching_witness :
    chatStateFix.poisoned = false
    ∧ c2FrameTop.step = some "end"
    ∧ c2FrameTop.output = some c2Output
    ∧ c2FrameTop.success = some true
    ∧ isResponseForCurrentThread chatStateFix.activeThreadId
        (c2Output.thread_id.map (fun n => toString n)) ctxFix.currentId
        (intLtZero (parseIntOfOpt ctxFix.currentId)) = true
    ∧ (onMessage ctxFix chatStateFix c2FrameTop).messages
        = chatStateFix.messages ++ [endSuccessMsg ctxFix chatStateFix.reflectionEvents c2Output] :=
  ⟨rfl, rfl, rfl, rfl, by decide,
    (C2_end_frame_branching ctxFix chatStateFix c2FrameTop c2Output rfl rfl rfl).2
      rfl (by decide)⟩

/-- The stored-message lookup ignores vote flags: updating the two vote
keys of a record never changes whether it matches. -/
theorem voteMatches_setFlags (cur : VoteMsg) (k : String) (u d : Bool)
    (x : StoredMessage) :
    voteMatches cur (if x.messageId = k then { x with metadata := { x.metadata with is_upvote := some u, is_downvote := some d } } else x)
      = voteMatches cur x := by
  by_cases h : x.messageId = k <;> simp [h, voteMatches]

/-- The lookup also ignores the vote flags of the in-memory message it
searches for. -/
theorem voteMatches_curFlags (c : VoteMsg) (u d : Bool) (m : StoredMessage) :
    voteMatches { c with is_upvote := u, is_downvote := d } m = voteMatches c m := rfl

theorem applyVoteStored_find? (stored : List StoredMessage) (cur : VoteMsg)
    (u d : Bool) (sm : StoredMessage)
    (hfind : stored.find? (fun m => voteMatches cur m) = some sm) :
    (applyVoteStored stored cur u d).find? (fun m => voteMatches cur m)
      = some { sm with metadata := { sm.metadata with is_upvote := some u, is_downvote := some d } } := by
  unfold applyVoteStored
  rw [hfind]
  rw [find?_map_invariant _ _ (fun x => voteMatches_setFlags cur sm.messageId u d x)]
  rw [hfind]
  simp

/-- Claim C9: after an upvote followed by a downvote on the same message
(remote feedback succeeding both times and answering with the message
id), exactly one of the two vote flags is true, is_downvote, and the
other false, both in the in-memory list and in the stored message
metadata; and a second vote in the same direction as the recorded one
returns immediately with no remote call and no state change. -/
theorem C9_vote_exclusivity_idempotence
    (env : VoteEnv) (st : VoteState) (i : Nat) (fb m0 : VoteMsg) (n : Int)
    (hapi : env.apiPresent = true) (huser : env.userPresent = true)
    (hrid : env.remoteId = some n) (hn : (n == 0) = false)
    (hget : st.messages.get? i = some m0) (hid : m0.id = some n)
    (hup : m0.is_upvote = false) (hdown : m0.is_downvote = false) :
    (∀ m ∈ (handleDownvoteClick env (handleUpvoteClick env st i fb).1 i fb).1.messages,
        m.id = some n → m.is_upvote = false ∧ m.is_downvote = true)
    ∧ (∀ sm, st.stored.find? (fun x => voteMatches m0 x) = some sm →
        (handleDownvoteClick env (handleUpvoteClick env st i fb).1 i fb).1.stored.find?
            (fun x => voteMatches m0 x)
          = some { sm with metadata := { sm.metadata with is_upvote := some false, is_downvote := some true } })
    ∧ handleUpvoteClick env (handleUpvoteClick env st i fb).1 i fb
        = ((handleUpvoteClick env st i fb).1, false) := by
  have hbeq : (m0.id == some n) = true := by rw [hid]; simp
  have hfst : handleUpvoteClick env st i fb
      = ({ messages := st.messages.map (fun m => if m.id == some n then { m with is_upvote := true, is_downvote := false } else m),
           stored := applyVoteStored st.stored m0 true false }, true) := by
    unfold handleUpvoteClick
    rw [hget]
    simp [hup, hapi, huser, hrid, hn]
  have hcur1 : (handleUpvoteClick env st i fb).1.messages.get? i
      = some { m0 with is_upvote := true, is_downvote := false } := by
    rw [hfst]
    show (st.messages.map _).get? i = _
    rw [List.get?_map, hget]
    simp [hid]
  have hsnd : handleDownvoteClick env (handleUpvoteClick env st i fb).1 i fb
      = ({ messages := (handleUpvoteClick env st i fb).1.messages.map
              (fun m => if m.id == some n then { m with is_downvote := true, is_upvote := false } else m),
           stored := applyVoteStored (handleUpvoteClick env st i fb).1.stored
              { m0 with is_upvote := true, is_downvote := false } false true }, true) := by
    unfold handleDownvoteClick
    rw [hcur1]
    simp [hapi, huser, hrid, hn]
  refine ⟨?_, ?_, ?_⟩
  · intro m hm hmn
    rw [hsnd, hfst] at hm
    simp only [List.map_map, List.mem_map] at hm
    obtain ⟨a, _, ha⟩ := hm
    by_cases hai : a.id = some n
    · rw [← ha]
      simp [Function.comp, beq_iff_eq, hai]
    · rw [← ha] at hmn
      simp [Function.comp, beq_iff_eq, hai] at hmn
  · intro sm hfind
    rw [hsnd, hfst]
    have h1 : (applyVoteStored st.stored m0 true false).find?
        (fun x => voteMatches m0 x)
        = some { sm with metadata := { sm.metadata with is_upvote := some true, is_downvote := some false } } :=
      applyVoteStored_find? st.stored m0 true false sm hfind
    have h2 := applyVoteStored_find? (applyVoteStored st.stored m0 true false)
      { m0 with is_upvote := true, is_downvote := false } false true
      { sm with metadata := { sm.metadata with is_upvote := some true, is_downvote := some false } }
      h1
    exact h2
  · generalize hr : (handleUpvoteClick env st i fb).1 = r1 at hcur1 ⊢
    rw [List.get?_eq_getElem?] at hcur1
    simp [handleUpvoteClick, hcur1]

/-- Assistant message fixture for the C9 witness. -/
def c9Msg : VoteMsg :=
  { id := some 5, role := "assistant", content := "Paris",
    is_upvote := false, is_downvote := false }

/-- Preceding user message fixture. -/
def c9UserMsg : VoteMsg :=
  { id := none, role := "user", content := "capital of France",
    is_upvote := false, is_downvote := false }

/-- Stored counterpart of the assistant message. -/
def c9Stored : StoredMessage :=
  { messageId := "m1", threadId := "42", role := "assistant", content := "Paris",
    createdAt := 3,
    metadata := { id := some 5, is_upvote := some false, is_downvote := some false } }

/-- Vote state fixture. -/
def c9State : VoteState := { messages := [c9UserMsg, c9Msg], stored := [c9Stored] }

/-- Vote environment fixture: api and user available, remote feedback
succeeds answering with the message id. -/
def c9Env : VoteEnv := { apiPresent := true, userPresent := true, remoteId := some 5 }

/-- Claim C9 witness: the idempotence conjunct at the concrete
fixtures. -/
theorem C9_vote_exclusivity_idempotence_witness :
    c9Env.apiPresent = true ∧ c9Env.userPresent = true ∧ c9Env.remoteId = some 5
    ∧ ((5 : Int) == 0) = false
    ∧ c9State.messages.get? 1 = some c9Msg
    ∧ c9Msg.id = some 5 ∧ c9Msg.is_upvote = false ∧ c9Msg.is_downvote = false
    ∧ handleUpvoteClick c9Env (handleUpvoteClick c9Env c9State 1 c9Msg).1 1 c9Msg
        = ((handleUpvoteClick c9Env c9State 1 c9Msg).1, false) :=
  ⟨rfl, rfl, rfl, by decide, rfl, rfl, rfl, rfl,
    (C9_vote_exclusivity_idempotence c9Env c9State 1 c9Msg c9Msg 5
      rfl rfl rfl (by decide) rfl rfl rfl rfl).2.2⟩

/-!
## Claim C4: migration idempotence
-/

/-- Message fixture living in the local thread -1. -/
def c4Msg : StoredMessage :=
  { messageId := "m1", threadId := "-1", role := "user", content := "hi",
    createdAt := 5, metadata := { id := none, is_upvote := none, is_downvote := none } }

/-- Local thread fixture holding that message. -/
def c4Thread : StoredThread :=
  { threadId := "-1", title := "New Chat", createdAt := 0, updatedAt := 0,
    messageIds := ["m1"],
    metadata := { serverThreadId := some none, localThreadId := some (some (-1)) } }

/-- Store fixture for the interrupted-migration counterexample. -/
def c4Store : Store :=
  { session := some sessionFix, threads := [c4Thread], messages := [c4Msg] }

/-- An interrupted first invocation (crash just before the old-thread
delete) followed by a complete re-run with the same arguments. -/
def c4Rerun : Except String (Store × StoredThread) :=
  match migrateThreadNoDelete c4Store 10 "-1" "42" (some "T") with
  | .ok s => migrateThreadStore s 11 "-1" "42" (some "T")
  | .error e => .error e

/-- Claim C4, counterexample: when the first invocation is interrupted
after repointing the messages but before deleting the old thread, the
re-run reads an empty message list for the old id and overwrites the new
thread with an empty messageIds list, so the final thread under the new
id does NOT contain the union of the migrated messages (the message m1
still exists, repointed at thread 42, but is absent from the thread
record). -/
theorem C4_counterexample :
    (c4Rerun.toOption.bind (fun r => getThreadPure r.1 "42")).map
        (fun t => t.messageIds) = some []
    ∧ c4Rerun.toOption.map
        (fun r => (getMessagesByThreadIdPure r.1 "42").map (fun m => m.messageId))
        = some ["m1"]
    ∧ c4Rerun.toOption.bind (fun r => getThreadPure r.1 "-1") = none := by
  decide

theorem createThreadStore_threads (s : Store) (now : Nat) (tid ttl : String)
    (meta : ThreadMeta) :
    (createThreadStore s now tid ttl meta).1.threads
      = putThread s.threads (createThreadStore s now tid ttl meta).2 := by
  simp [createThreadStore, bumpThreadCount_threads]

theorem updateThreadMessageIds_ok (s : Store) (now : Nat) (tid : String)
    (ids : List String) (t : StoredThread)
    (hfind : getThreadPure s tid = some t) :
    updateThreadMessageIds s now tid ids
      = .ok { s with threads := putThread s.threads { t with messageIds := ids, updatedAt := now } } := by
  unfold updateThreadMessageIds
  rw [hfind]

theorem getThreadPure_after_create_repoint (s : Store) (now : Nat)
    (tid ttl : String) (meta : ThreadMeta) (msgs : List StoredMessage)
    (rid : String) :
    getThreadPure (repointMessages msgs rid (createThreadStore s now tid ttl meta).1) tid
      = some (createThreadStore s now tid ttl meta).2 := by
  unfold getThreadPure
  rw [repointMessages_threads, createThreadStore_threads]
  exact putThread_find?_self (createThreadStore s now tid ttl meta).2 s.threads

theorem migrateThreadStore_ok_shape (s : Store) (now : Nat) (oldId newId : String)
    (title : Option String) (oldT : StoredThread)
    (hold : getThreadPure s oldId = some oldT) :
    ∃ p : Store × StoredThread,
      migrateThreadStore s now oldId newId title = .ok p
      ∧ p.1.threads = (putThread (putThread s.threads p.2)
          { p.2 with messageIds := (getMessagesByThreadIdPure s oldId).map (fun m => m.messageId), updatedAt := now }).filter (fun t => t.threadId ≠ oldId)
      ∧ p.2.threadId = newId
      ∧ p.2.messageIds = [] := by
  unfold migrateThreadStore
  rw [hold]
  dsimp only []
  rw [updateThreadMessageIds_ok _ now newId _ _
    (getThreadPure_after_create_repoint s now newId (jsOrStr title oldT.title)
      (migrateMeta (if intGtZero (parseIntJS newId) then parseIntJS newId else none)
        (if intLtZero (parseIntJS oldId) then parseIntJS oldId else none)
        oldT.metadata)
      (getMessagesByThreadIdPure s oldId) newId)]
  refine ⟨_, rfl, ?_, rfl, rfl⟩
  rw [dropThreadCount_threads]
  show (putThread (repointMessages (getMessagesByThreadIdPure s oldId) newId _).threads _).filter _ = _
  rw [repointMessages_threads, createThreadStore_threads]

/-- Claim C4 (amended): when the first invocation of migrateThread runs
to completion, the store holds exactly one thread under the new id whose
messageIds are exactly the ids of the messages of the old thread, without
duplicates, and no thread under the old id survives; the second
invocation with the same arguments then rejects with Thread-not-found
before performing any write, leaving that state in place. A re-run after
an interruption between the message repointing and the old-thread delete
instead loses the messages from the new thread record. -/
theorem C4_migration_idempotence_completed (s : Store) (now1 now2 : Nat)
    (oldId newId : String) (title : Option String) (s1 : Store) (t1 : StoredThread)
    (oldT : StoredThread)
    (hneq : oldId ≠ newId)
    (hthreads : (s.threads.map (fun t => t.threadId)).Nodup)
    (hmsgids : (s.messages.map (fun m => m.messageId)).Nodup)
    (hold : getThreadPure s oldId = some oldT)
    (hrun : migrateThreadStore s now1 oldId newId title = .ok (s1, t1)) :
    migrateThreadStore s1 now2 oldId newId title
        = .error ("Thread " ++ oldId ++ " not found")
    ∧ (s1.threads.filter (fun t => t.threadId = newId)).length = 1
    ∧ (∀ t ∈ s1.threads, t.threadId ≠ oldId)
    ∧ (∃ tn, getThreadPure s1 newId = some tn
        ∧ tn.messageIds.Perm
            ((s.messages.filter (fun m => m.threadId = oldId)).map (fun m => m.messageId))
        ∧ tn.messageIds.Nodup) := by
  obtain ⟨p, hp, hthr, hpid, hpids⟩ :=
    migrateThreadStore_ok_shape s now1 oldId newId title oldT hold
  rw [hrun] at hp
  injection hp with hp
  subst hp
  have hnoold : ∀ t ∈ s1.threads, t.threadId ≠ oldId := by
    intro t ht
    rw [hthr] at ht
    have h := List.of_mem_filter ht
    simpa using h
  have hnone : getThreadPure s1 oldId = none := by
    unfold getThreadPure
    rw [List.find?_eq_none]
    intro t ht
    simpa using hnoold t ht
  have hsecond : migrateThreadStore s1 now2 oldId newId title
      = .error ("Thread " ++ oldId ++ " not found") := by
    unfold migrateThreadStore
    rw [hnone]
  have himp : ∀ x : StoredThread,
      (decide (x.threadId = newId)) = true → (decide (x.threadId ≠ oldId)) = true := by
    intro x hx
    simp only [decide_eq_true_eq] at hx
    simp only [decide_eq_true_eq]
    rw [hx]
    exact fun h => hneq h.symm
  have hUPD : getThreadPure s1 newId
      = some { t1 with
          messageIds := (getMessagesByThreadIdPure s oldId).map (fun m => m.messageId),
          updatedAt := now1 } := by
    unfold getThreadPure
    rw [hthr]
    rw [find?_filter_of_imp _ _ himp]
    have ht : ({ t1 with
        messageIds := (getMessagesByThreadIdPure s oldId).map (fun m => m.messageId),
        updatedAt := now1 } : StoredThread).threadId = newId := hpid
    rw [← ht]
    exact putThread_find?_self _ _
  have hkeysL : (((putThread (putThread s.threads t1)
      { t1 with
        messageIds := (getMessagesByThreadIdPure s oldId).map (fun m => m.messageId),
        updatedAt := now1 }).map (fun t => t.threadId))).Nodup :=
    putThread_keys_nodup _ _ (putThread_keys_nodup _ _ hthreads)
  have hkeys1 : (s1.threads.map (fun t => t.threadId)).Nodup := by
    rw [hthr]
    exact List.Nodup.sublist (List.Sublist.map _ (List.filter_sublist _)) hkeysL
  have hle := filter_key_length_le_one (fun t : StoredThread => t.threadId) newId
    s1.threads hkeys1
  have hmemUPD : ({ t1 with
      messageIds := (getMessagesByThreadIdPure s oldId).map (fun m => m.messageId),
      updatedAt := now1 } : StoredThread) ∈ s1.threads :=
    List.mem_of_find?_eq_some hUPD
  have hpredUPD := List.find?_some hUPD
  have hpos : 0 < (s1.threads.filter (fun t => t.threadId = newId)).length := by
    have hmf : ({ t1 with
        messageIds := (getMessagesByThreadIdPure s oldId).map (fun m => m.messageId),
        updatedAt := now1 } : StoredThread) ∈
        s1.threads.filter (fun t => t.threadId = newId) :=
      List.mem_filter.mpr ⟨hmemUPD, hpredUPD⟩
    exact List.length_pos.mpr (List.ne_nil_of_mem hmf)
  have hperm : ((getMessagesByThreadIdPure s oldId).map (fun m => m.messageId)).Perm
      ((s.messages.filter (fun m => m.threadId = oldId)).map (fun m => m.messageId)) :=
    (List.perm_insertionSort _ _).map _
  have hnodup : ((getMessagesByThreadIdPure s oldId).map (fun m => m.messageId)).Nodup := by
    have hsub : ((s.messages.filter (fun m => m.threadId = oldId)).map
        (fun m => m.messageId)).Nodup :=
      List.Nodup.sublist (List.Sublist.map _ (List.filter_sublist _)) hmsgids
    exact hperm.nodup_iff.mpr hsub
  refine ⟨hsecond, Nat.le_antisymm hle hpos, hnoold, ?_⟩
  exact ⟨_, hUPD, hperm, hnodup⟩

/-- The completed first migration run on the fixture store. -/
def c4FullRun : Except String (Store × StoredThread) :=
  migrateThreadStore c4Store 10 "-1" "42" (some "T")

/-- Store after the completed first run. -/
def c4RunStore : Store :=
  match c4FullRun with
  | .ok r => r.1
  | .error _ => c4Store

/-- Thread value resolved by the completed first run. -/
def c4RunThread : StoredThread :=
  match c4FullRun with
  | .ok r => r.2
  | .error _ => c4Thread

/-- Claim C4 witness: the amended statement at the concrete fixtures; the
second invocation rejects with Thread-not-found. -/
theorem C4_migration_idempotence_completed_witness :
    ("-1" : String) ≠ "42"
    ∧ (c4Store.threads.map (fun t => t.threadId)).Nodup
    ∧ (c4Store.messages.map (fun m => m.messageId)).Nodup
    ∧ getThreadPure c4Store "-1" = some c4Thread
    ∧ migrateThreadStore c4Store 10 "-1" "42" (some "T") = .ok (c4RunStore, c4RunThread)
    ∧ migrateThreadStore c4RunStore 11 "-1" "42" (some "T")
        = .error ("Thread " ++ "-1" ++ " not found") :=
  ⟨by decide, by decide, by decide, by decide, rfl,
    (C4_migration_idempotence_completed c4Store 10 11 "-1" "42" (some "T")
      c4RunStore c4RunThread c4Thread (by decide) (by decide) (by decide)
      (by decide) rfl).1⟩
